import Mathlib

/-!
Shallow embedding of the jmeter-distributed-load-test repository
(src/jmeter_runner.py, src/slave.py, src/master.py, src/aws_helper.py)
and proofs about its orchestration, aggregation and worker-agent logic.

Modelling conventions:
* a result row is a record whose responseCode is the outcome of
  pd.to_numeric(errors = coerce): some n for a code that parses to the
  integer n, none for a missing or unparsable code (NaN);
* Python dictionaries (other_errors, error_5xx) are insertion-ordered
  association lists, as CPython dicts are;
* the stable Python sorted(..., key = count, reverse = True) is modelled by
  a stable descending insertion sort;
* files and processes are explicit state: the presence and content of
  results-file.jtl is an Option String, a process handle is represented by
  the value its poll() would return (none while alive, some code after exit);
* an uncaught Python exception is an Except.error value.
-/

namespace JmeterDLT

/-! ### src/jmeter_runner.py : result records and aggregation state -/

/-- One well-formed row of a results-file.jtl artifact, after the
responseCode column went through pd.to_numeric(errors = coerce):
responseCode is some n when the cell parses to the integer n and none when
the cell is missing or unparsable (NaN). -/
structure ResultRecord where
  responseCode : Option Int
  responseMessage : String
deriving DecidableEq, Repr

/-- The status_counts dictionary of analyze_results, one field per bucket. -/
structure StatusCounts where
  c2xx : Nat
  c3xx : Nat
  c4xx : Nat
  c5xx : Nat
  other : Nat
deriving DecidableEq, Repr

/-- Python d[k] = d.get(k, 0) + 1 on an insertion-ordered dictionary: an
existing key keeps its position, a new key is appended at the end. -/
def bump (tbl : List (String × Nat)) (k : String) : List (String × Nat) :=
  match tbl with
  | [] => [(k, 1)]
  | (k₀, n) :: t => if k₀ = k then (k₀, n + 1) :: t else (k₀, n) :: bump t k

/-- The mutable state of the analyze_results loop: the bucket counters and
the two message-frequency dictionaries. -/
structure AggState where
  counts : StatusCounts
  other_errors : List (String × Nat)
  error_5xx : List (String × Nat)
deriving DecidableEq, Repr

def initAggState : AggState := ⟨⟨0, 0, 0, 0, 0⟩, [], []⟩

/-- The body of the for-loop of analyze_results: pd.isna(status) sends the
row to other keyed by its message; otherwise the elif chain buckets the
integer code by hundreds, recording 5xx messages, and the final else sends
the row to other keyed by str(status). -/
def processRow (st : AggState) (row : ResultRecord) : AggState :=
  match row.responseCode with
  | none =>
      { st with
        counts := { st.counts with other := st.counts.other + 1 },
        other_errors := bump st.other_errors row.responseMessage }
  | some status =>
      if 200 ≤ status ∧ status < 300 then
        { st with counts := { st.counts with c2xx := st.counts.c2xx + 1 } }
      else if 300 ≤ status ∧ status < 400 then
        { st with counts := { st.counts with c3xx := st.counts.c3xx + 1 } }
      else if 400 ≤ status ∧ status < 500 then
        { st with counts := { st.counts with c4xx := st.counts.c4xx + 1 } }
      else if 500 ≤ status ∧ status < 600 then
        { st with
          counts := { st.counts with c5xx := st.counts.c5xx + 1 },
          error_5xx := bump st.error_5xx row.responseMessage }
      else
        { st with
          counts := { st.counts with other := st.counts.other + 1 },
          other_errors := bump st.other_errors (toString status) }

/-- analyze_results up to its printing: fold the loop body over the rows of
the artifact. -/
def analyze_results (rows : List ResultRecord) : AggState :=
  rows.foldl processRow initAggState

/-- Sum of the five bucket counters. -/
def bucketSum (c : StatusCounts) : Nat :=
  c.c2xx + c.c3xx + c.c4xx + c.c5xx + c.other

theorem bucketSum_processRow (st : AggState) (row : ResultRecord) :
    bucketSum (processRow st row).counts = bucketSum st.counts + 1 := by
  rcases row with ⟨code, msg⟩
  cases code with
  | none => simp only [processRow, bucketSum]; omega
  | some status =>
      simp only [processRow, bucketSum]
      split_ifs <;> simp [bucketSum] <;> omega

theorem bucketSum_foldl (rows : List ResultRecord) :
    ∀ st : AggState,
      bucketSum (rows.foldl processRow st).counts = bucketSum st.counts + rows.length := by
  induction rows with
  | nil => intro st; simp
  | cons r rest ih =>
      intro st
      simp only [List.foldl_cons, List.length_cons]
      rw [ih, bucketSum_processRow]
      omega

/-! ### src/jmeter_runner.py : top-3 error reporting

Python sorted(tbl.items(), key = count, reverse = True) is a stable sort:
reverse = True flips the comparison instead of reversing the output, so
entries of equal count keep their dictionary (first-encountered) order. A
stable descending sort is modelled by left-to-right insertion, each new
element placed after every already-placed element of greater-or-equal
count. -/

/-- Insert x into an already sorted (descending by count) list, after every
element whose count is greater or equal: the stable position. -/
def insertByCountDesc (x : String × Nat) : List (String × Nat) → List (String × Nat)
  | [] => [x]
  | y :: t => if x.2 ≤ y.2 then y :: insertByCountDesc x t else x :: y :: t

/-- Stable sort by count descending, modelling
sorted(items, key = count, reverse = True). -/
def sortByCountDesc (tbl : List (String × Nat)) : List (String × Nat) :=
  tbl.foldl (fun acc x => insertByCountDesc x acc) []

/-- The [:3] slice applied to the sorted error table. -/
def topErrors (tbl : List (String × Nat)) : List (String × Nat) :=
  (sortByCountDesc tbl).take 3

/-- Reporting guard of analyze_results: the top other errors are printed
only when the other bucket is nonzero. -/
def reportedTopOther (st : AggState) : Option (List (String × Nat)) :=
  if 0 < st.counts.other then some (topErrors st.other_errors) else none

/-- Reporting guard of analyze_results: the top 5xx errors are printed only
when the 5xx bucket is nonzero. -/
def reportedTop5xx (st : AggState) : Option (List (String × Nat)) :=
  if 0 < st.counts.c5xx then some (topErrors st.error_5xx) else none

theorem mem_insertByCountDesc (x z : String × Nat) (l : List (String × Nat)) :
    z ∈ insertByCountDesc x l ↔ z = x ∨ z ∈ l := by
  induction l with
  | nil => simp [insertByCountDesc]
  | cons y t ih =>
      simp only [insertByCountDesc]
      split_ifs with h
      · rw [List.mem_cons, ih, List.mem_cons]
        tauto
      · simp only [List.mem_cons]

theorem pairwise_insertByCountDesc (x : String × Nat) (l : List (String × Nat))
    (hl : List.Pairwise (fun a b => b.2 ≤ a.2) l) :
    List.Pairwise (fun a b => b.2 ≤ a.2) (insertByCountDesc x l) := by
  induction l with
  | nil => simp [insertByCountDesc]
  | cons y t ih =>
      rw [List.pairwise_cons] at hl
      obtain ⟨hy, ht⟩ := hl
      simp only [insertByCountDesc]
      split_ifs with h
      · rw [List.pairwise_cons]
        constructor
        · intro z hz
          rw [mem_insertByCountDesc] at hz
          rcases hz with rfl | hz
          · exact h
          · exact hy z hz
        · exact ih ht
      · rw [List.pairwise_cons]
        constructor
        · intro z hz
          rcases List.mem_cons.mp hz with rfl | hz
          · omega
          · exact le_trans (hy z hz) (by omega)
        · rw [List.pairwise_cons]
          exact ⟨hy, ht⟩

theorem pairwise_sortByCountDesc_aux (l acc : List (String × Nat))
    (hacc : List.Pairwise (fun a b => b.2 ≤ a.2) acc) :
    List.Pairwise (fun a b => b.2 ≤ a.2)
      (l.foldl (fun acc x => insertByCountDesc x acc) acc) := by
  induction l generalizing acc with
  | nil => exact hacc
  | cons x rest ih =>
      exact ih (insertByCountDesc x acc) (pairwise_insertByCountDesc x acc hacc)

theorem pairwise_sortByCountDesc (tbl : List (String × Nat)) :
    List.Pairwise (fun a b => b.2 ≤ a.2) (sortByCountDesc tbl) :=
  pairwise_sortByCountDesc_aux tbl [] (List.Pairwise.nil)

theorem filter_insertByCountDesc (x : String × Nat) (l : List (String × Nat)) (c : Nat)
    (hl : List.Pairwise (fun a b => b.2 ≤ a.2) l) :
    (insertByCountDesc x l).filter (fun p => p.2 == c)
      = if x.2 = c then l.filter (fun p => p.2 == c) ++ [x]
        else l.filter (fun p => p.2 == c) := by
  induction l with
  | nil =>
      by_cases hx : x.2 = c <;> simp [insertByCountDesc, List.filter_cons, hx]
  | cons y t ih =>
      rw [List.pairwise_cons] at hl
      obtain ⟨hy, ht⟩ := hl
      simp only [insertByCountDesc]
      by_cases h : x.2 ≤ y.2
      · rw [if_pos h, List.filter_cons, List.filter_cons, ih ht]
        by_cases hx : x.2 = c <;> by_cases hyc : y.2 = c <;> simp [hx, hyc]
      · rw [if_neg h]
        push_neg at h
        by_cases hx : x.2 = c
        · have hyt : (y :: t).filter (fun p => p.2 == c) = [] := by
            rw [List.filter_eq_nil_iff]
            intro z hz
            have hzle : z.2 ≤ y.2 := by
              rcases List.mem_cons.mp hz with rfl | hz
              · exact le_refl _
              · exact hy z hz
            simp only [beq_iff_eq]
            omega
          rw [if_pos hx, hyt, List.filter_cons]
          have hxb : (x.2 == c) = true := by simp [hx]
          rw [hxb, hyt]
          simp
        · rw [if_neg hx, List.filter_cons]
          have hxb : (x.2 == c) = false := by simp [hx]
          rw [hxb]
          simp

theorem filter_sortByCountDesc_aux (l acc : List (String × Nat)) (c : Nat)
    (hacc : List.Pairwise (fun a b => b.2 ≤ a.2) acc) :
    (l.foldl (fun acc x => insertByCountDesc x acc) acc).filter (fun p => p.2 == c)
      = acc.filter (fun p => p.2 == c) ++ l.filter (fun p => p.2 == c) := by
  induction l generalizing acc with
  | nil => simp
  | cons x rest ih =>
      simp only [List.foldl_cons]
      rw [ih (insertByCountDesc x acc) (pairwise_insertByCountDesc x acc hacc),
        filter_insertByCountDesc x acc c hacc]
      by_cases hx : x.2 = c
      · have hxb : (x.2 == c) = true := by simp [hx]
        simp [hx, List.filter_cons, hxb]
      · have hxb : (x.2 == c) = false := by simp [hx]
        simp [hx, List.filter_cons, hxb]

/-- Stability of the modelled Python sort: for every count value c, the
entries of count c appear in the sorted table exactly in their original
(first-encountered) order. -/
theorem filter_sortByCountDesc (tbl : List (String × Nat)) (c : Nat) :
    (sortByCountDesc tbl).filter (fun p => p.2 == c) = tbl.filter (fun p => p.2 == c) := by
  have := filter_sortByCountDesc_aux tbl [] c List.Pairwise.nil
  simpa [sortByCountDesc] using this

/-! ### src/jmeter_runner.py and src/slave.py : worker-agent state

The per-node state is the global jmeter_process variable of slave.py and the
results-file.jtl file of the working directory. A process handle is
represented by the value its poll() would return: none while the process is
alive, some exitCode once it has exited. jmeter_process is none until the
first dispatch (the module-load state). -/

/-- State of one worker node: the global jmeter_process of slave.py (none
before any test; some p for a handle whose poll() returns p) and the
presence and content of results-file.jtl. -/
structure SlaveState where
  jmeter_process : Option (Option Int)
  resultFile : Option String
deriving DecidableEq, Repr

/-- check_jmeter_status of jmeter_runner.py: poll() returning None means the
process is alive, anything else means it has exited. The exit code value is
never inspected, only its presence. -/
def check_jmeter_status (pollResult : Option Int) : String :=
  match pollResult with
  | none => "Running"
  | some _ => "Completed"

/-- run_jmeter_test of jmeter_runner.py as a state transformer: the existing
results-file.jtl is removed if present, and a fresh executor process is
started (its poll() returns None while it runs). The new handle is stored in
jmeter_process by the run_test closure of slave.py. -/
def run_jmeter_test (_st : SlaveState) : SlaveState :=
  { jmeter_process := some none, resultFile := none }

/-- Whether the guard of the /start-test endpoint fires: jmeter_process is
not None and check_jmeter_status of it is Running. -/
def isRunning (st : SlaveState) : Bool :=
  match st.jmeter_process with
  | some p => check_jmeter_status p == "Running"
  | none => false

/-- The /start-test endpoint of slave.py: a (statusCode, body-status) pair
plus the successor node state. A node already Running answers
400 JMeter test already running and is left unchanged; otherwise the test
is started (in a background thread) and the endpoint answers
200 Test started on slave. -/
def start_test (st : SlaveState) (_jmx_file : String) : (Nat × String) × SlaveState :=
  match st.jmeter_process with
  | some p =>
      if check_jmeter_status p = "Running" then
        ((400, "JMeter test already running"), st)
      else
        ((200, "Test started on slave"), run_jmeter_test st)
  | none => ((200, "Test started on slave"), run_jmeter_test st)

/-- The /check-status endpoint of slave.py: 200 always; body status is
No test running when jmeter_process is None, else the liveness-derived
status of check_jmeter_status. -/
def check_status (st : SlaveState) : Nat × String :=
  match st.jmeter_process with
  | none => (200, "No test running")
  | some p => (200, check_jmeter_status p)

/-- get_latest_results_file of jmeter_runner.py: the path results-file.jtl
when the file exists, None otherwise. -/
def get_latest_results_file (st : SlaveState) : Option String :=
  match st.resultFile with
  | some _ => some "results-file.jtl"
  | none => none

/-- Result of an HTTP endpoint that may stream a file: send_file of the
artifact content, or a JSON body with a status code. -/
inductive HttpResult where
  | file (content : String)
  | json (status : Nat) (body : String)
deriving DecidableEq, Repr

/-- The /get-results endpoint of slave.py: streams the latest
results-file.jtl when get_latest_results_file finds one, otherwise answers
404 No results available. -/
def get_results (st : SlaveState) : HttpResult :=
  match get_latest_results_file st, st.resultFile with
  | some _, some content => .file content
  | _, _ => .json 404 "No results available"

/-! ### src/master.py : fleet registry and the orchestrator round

A registry entry is one element of instance_ips.json. The environment around
the orchestrator (whether a GET /health on a node would succeed, whether a
GET /get-results raises) is passed explicitly where a claim needs it. -/

/-- One entry of instance_ips.json: InstanceId, PublicIpAddress (the literal
N/A when absent) and PrivateIpAddress. -/
structure SlaveNode where
  instanceId : String
  publicIp : String
  privateIp : String
deriving DecidableEq, Repr

/-- Address selection used by every orchestrator step: the public address,
falling back to the private one when the public one is the literal N/A. -/
def addressOf (i : SlaveNode) : String :=
  if i.publicIp ≠ "N/A" then i.publicIp else i.privateIp

/-- start_test_on_slaves of master.py, returning the list of addresses a
POST /start-test is sent to: the empty registry short-circuits, any other
registry is dispatched to in full. No health endpoint is consulted anywhere
in master.py, so the dispatch targets cannot depend on any health state. -/
def start_test_on_slaves (ips_data : List SlaveNode) (_jmx_file : String) : List String :=
  match ips_data with
  | [] => []
  | _ => ips_data.map addressOf

/-- State of the instance_ips.json file as load_instance_ips sees it:
missing, present with JSON that parses to an entry list, or present but
corrupt (json.load raises json.JSONDecodeError, which master.py does not
catch). -/
inductive RegistryFile where
  | missing
  | valid (entries : List SlaveNode)
  | corrupt
deriving DecidableEq, Repr

/-- load_instance_ips of master.py: a missing file is reported and an empty
list returned; an existing file is handed to json.load, whose parse failure
propagates as an uncaught exception. -/
def load_instance_ips : RegistryFile → Except String (List SlaveNode)
  | .missing => .ok []
  | .valid entries => .ok entries
  | .corrupt => .error "json.JSONDecodeError"

/-- Outcome of the requests.get on one node during result collection:
either an HTTP response arrives (whatever its status; its body is written
to the per-node result file) or the request itself raises. -/
inductive FetchOutcome where
  | response (content : String)
  | connectionError
deriving DecidableEq, Repr

/-- The per-node result file name used by collect_results_from_slaves. -/
def resultFileNameOf (node : SlaveNode) : String :=
  node.instanceId ++ "_results.jtl"

/-- The loop of collect_results_from_slaves: each node in turn, the fetched
body is written to InstanceId_results.jtl and the name appended; a raising
requests.get propagates out of the loop, abandoning the nodes not yet
visited and the names already collected. -/
def collectLoop : List (SlaveNode × FetchOutcome) → Except String (List String)
  | [] => .ok []
  | (_, .connectionError) :: _ => .error "requests.exceptions.ConnectionError"
  | (node, .response _) :: rest =>
      (collectLoop rest).map (fun files => resultFileNameOf node :: files)

/-- collect_results_from_slaves of master.py: an empty registry prints and
returns None; otherwise the loop runs and its uncaught exception, if any,
propagates. -/
def collect_results_from_slaves (fleet : List (SlaveNode × FetchOutcome)) :
    Except String (Option (List String)) :=
  match fleet with
  | [] => .ok none
  | _ => (collectLoop fleet).map some

/-! ### src/aws_helper.py : instance index assignment

get_next_instance_index reads instance_ips.json and answers its length plus
one (one when the file is missing). launch_instances tags the n new
instances Ubuntu-Jmeter-Load-Test-Slave-{next}, ..., {next+n-1} and then
OVERWRITES instance_ips.json with exactly the new instances.
terminate_instances deletes instance_ips.json. The registry file is modelled
as Option (List SlaveNode), none when deleted or never written. -/

/-- get_next_instance_index of aws_helper.py. -/
def get_next_instance_index (file : Option (List SlaveNode)) : Nat :=
  match file with
  | some ip_data => ip_data.length + 1
  | none => 1

/-- The registry-affecting fleet operations of aws_helper.py: a launch of a
batch of new instances (the provider returns their entries) and the
terminate-all operation. -/
inductive FleetOp where
  | launch (newInstances : List SlaveNode)
  | terminate
deriving DecidableEq, Repr

/-- Effect of one operation on the registry file, paired with the indices
the operation assigns: launch_instances tags indices next, ..., next+n-1 and
rewrites the file to hold exactly the new batch; terminate_instances deletes
the file and assigns nothing. -/
def applyOp (file : Option (List SlaveNode)) : FleetOp → Option (List SlaveNode) × List Nat
  | .launch newInstances =>
      (some newInstances, List.range' (get_next_instance_index file) newInstances.length)
  | .terminate => (none, [])

/-- Run a sequence of fleet operations, collecting the indices each launch
assigns. -/
def runOps (file : Option (List SlaveNode)) : List FleetOp → Option (List SlaveNode) × List (List Nat)
  | [] => (file, [])
  | op :: rest =>
      let step := applyOp file op
      let tail := runOps step.1 rest
      (tail.1, step.2 :: tail.2)

/-! ### Claim theorems -/

/-- Concrete two-node fleet used for the C1 instances. -/
def c1Node1 : SlaveNode := ⟨"i-0001", "54.0.0.1", "10.0.0.1"⟩

def c1Node2 : SlaveNode := ⟨"i-0002", "N/A", "10.0.0.2"⟩

def c1Fleet : List SlaveNode := [c1Node1, c1Node2]

/-- A health environment in which the second fleet member fails health. -/
def c1Health : SlaveNode → Bool := fun n => n.instanceId == "i-0001"

/-- C1 counterexample: in a two-member fleet where one member fails
health(), dispatch is still sent to both members, not to zero members —
master.py contains no health gate at all. -/
theorem c1_health_gate_cex :
    (∃ m ∈ c1Fleet, c1Health m = false) ∧
      start_test_on_slaves c1Fleet "load_test/plan.jmx" ≠ [] := by
  decide

/-- C1 (amended): the orchestrator performs no health gate. For every
registry, every test file and every health environment, even when some
member fails health(), POST /start-test is sent to every registered member
(public address, falling back to private), never to zero members. -/
theorem c1_dispatch_ignores_health (ips_data : List SlaveNode) (jmx_file : String)
    (health : SlaveNode → Bool) (hunhealthy : ∃ m ∈ ips_data, health m = false) :
    start_test_on_slaves ips_data jmx_file = ips_data.map addressOf := by
  rcases ips_data with _ | ⟨a, rest⟩
  · simp at hunhealthy
  · rfl

/-- C1 witness: the amended theorem applied to the concrete two-member
fleet with a failing member. -/
theorem c1_dispatch_ignores_health_witness :
    start_test_on_slaves c1Fleet "load_test/plan.jmx" = c1Fleet.map addressOf :=
  c1_dispatch_ignores_health c1Fleet "load_test/plan.jmx" c1Health (by decide)

/-- C2: the aggregation total invariant. For every artifact, every
well-formed record increments exactly one bucket, so the sum of the five
bucket counts of analyze_results equals the number of records. -/
theorem c2_aggregation_total_invariant :
    ∀ rows : List ResultRecord, bucketSum (analyze_results rows).counts = rows.length := by
  intro rows
  have h := bucketSum_foldl rows initAggState
  simpa [analyze_results, initAggState, bucketSum] using h

/-- Concrete nodes for the C3 instances. -/
def c3NodeA : SlaveNode := ⟨"i-0aaa", "54.0.0.3", "10.0.0.3"⟩

def c3NodeB : SlaveNode := ⟨"i-0bbb", "54.0.0.4", "10.0.0.4"⟩

/-- Launch one instance, terminate the fleet, launch one more. -/
def c3Ops : List FleetOp := [.launch [c3NodeA], .terminate, .launch [c3NodeB]]

/-- C3 counterexample: get_next_instance_index is just file length plus one,
and terminate_instances deletes the file, so launching, terminating and
launching again assigns index 1 twice — the index is reused across an
intervening termination, against the claim. -/
theorem c3_index_reuse_cex :
    (runOps none c3Ops).2 = [[1], [], [1]] ∧
      ((runOps none c3Ops).2.flatten).count 1 = 2 := by
  decide

/-- C3 (amended): indices derive from the current registry file length
only. Two consecutive launches with no intervening termination assign the
strictly increasing, duplicate-free indices 1..N then N+1..N+M; but the
registry file afterwards holds only the second batch, and a termination
deletes the file so a later launch restarts from index 1 (reuse, shown by
the counterexample). -/
theorem c3_monotonic_between_launches (new1 new2 : List SlaveNode) :
    (runOps none [FleetOp.launch new1, FleetOp.launch new2]).2.flatten
        = List.range' 1 (new1.length + new2.length) ∧
      List.Pairwise (· < ·) ((runOps none [FleetOp.launch new1, FleetOp.launch new2]).2.flatten) ∧
      (runOps none [FleetOp.launch new1, FleetOp.launch new2]).1 = some new2 := by
  have hflat : (runOps none [FleetOp.launch new1, FleetOp.launch new2]).2.flatten
      = List.range' 1 new1.length ++ List.range' (new1.length + 1) new2.length := by
    simp [runOps, applyOp, get_next_instance_index]
  have happ := List.range'_append 1 new1.length new2.length 1
  rw [one_mul, Nat.add_comm 1 new1.length] at happ
  have hmain : (runOps none [FleetOp.launch new1, FleetOp.launch new2]).2.flatten
      = List.range' 1 (new1.length + new2.length) := by
    rw [hflat, happ, Nat.add_comm new2.length new1.length]
  refine ⟨hmain, ?_, ?_⟩
  · rw [hmain]
    exact List.pairwise_lt_range' 1 (new1.length + new2.length) 1
  · simp [runOps, applyOp]

/-- A node whose executor is alive: jmeter_process holds a handle whose
poll() returns None. -/
def c4RunningState : SlaveState := ⟨some none, none⟩

/-- A node on which no test was ever dispatched. -/
def c4IdleState : SlaveState := ⟨none, none⟩

/-- C4 counterexample: a second dispatch while Running is answered with
status code 400 and body status JMeter test already running, not with
409 already running; and a dispatch to a non-Running node answers
200 Test started on slave, not 200 started. -/
theorem c4_conflict_status_cex :
    (start_test c4RunningState "load_test/plan.jmx").1 = (400, "JMeter test already running") ∧
      (start_test c4RunningState "load_test/plan.jmx").1 ≠ (409, "already running") ∧
      (start_test c4IdleState "load_test/plan.jmx").1 ≠ (200, "started") := by
  decide

/-- C4 (amended): a dispatch while the executor is Running is rejected with
400 JMeter test already running and the node state is left unchanged (the
request is never queued); a dispatch to a node that is not Running answers
200 Test started on slave and starts a fresh run. -/
theorem c4_dispatch_conflict :
    (∀ (st : SlaveState) (jmx : String), isRunning st = true →
        start_test st jmx = ((400, "JMeter test already running"), st)) ∧
      (∀ (st : SlaveState) (jmx : String), isRunning st = false →
        start_test st jmx = ((200, "Test started on slave"), run_jmeter_test st)) := by
  constructor
  · intro st jmx h
    rcases st with ⟨proc, fs⟩
    cases proc with
    | none => simp [isRunning] at h
    | some p =>
        cases p with
        | none => simp [start_test, check_jmeter_status]
        | some code => simp [isRunning, check_jmeter_status] at h
  · intro st jmx h
    rcases st with ⟨proc, fs⟩
    cases proc with
    | none => rfl
    | some p =>
        cases p with
        | none => simp [isRunning, check_jmeter_status] at h
        | some code => simp [start_test, check_jmeter_status]

/-- C4 witness: the amended theorem applied to the concrete Running and
idle nodes. -/
theorem c4_dispatch_conflict_witness :
    start_test c4RunningState "load_test/plan.jmx"
        = ((400, "JMeter test already running"), c4RunningState) ∧
      start_test c4IdleState "load_test/plan.jmx"
        = ((200, "Test started on slave"), run_jmeter_test c4IdleState) :=
  ⟨c4_dispatch_conflict.1 c4RunningState "load_test/plan.jmx" (by decide),
    c4_dispatch_conflict.2 c4IdleState "load_test/plan.jmx" (by decide)⟩

/-- C5 counterexample: on a node where no executor was ever started,
GET /check-status answers body status No test running, which is none of
Idle, Running, Completed — the claimed Idle literal does not occur. -/
theorem c5_idle_literal_cex :
    ¬ ((check_status ⟨none, none⟩).2 = "Idle" ∨ (check_status ⟨none, none⟩).2 = "Running" ∨
        (check_status ⟨none, none⟩).2 = "Completed") := by
  decide

/-- C5 (amended): GET /check-status always answers 200 with a body status
among No test running, Running, Completed; the status is derived purely
from executor liveness — a live poll() (None) yields Running and any exited
process yields Completed whatever its exit code, which is never
inspected. -/
theorem c5_status_from_liveness :
    (∀ st : SlaveState, (check_status st).1 = 200 ∧
        ((check_status st).2 = "No test running" ∨ (check_status st).2 = "Running" ∨
          (check_status st).2 = "Completed")) ∧
      check_jmeter_status none = "Running" ∧
      (∀ exitCode : Int, check_jmeter_status (some exitCode) = "Completed") := by
  refine ⟨?_, rfl, fun _ => rfl⟩
  intro st
  rcases st with ⟨proc, fs⟩
  cases proc with
  | none => exact ⟨rfl, Or.inl rfl⟩
  | some p =>
      cases p with
      | none => exact ⟨rfl, Or.inr (Or.inl rfl)⟩
      | some c => exact ⟨rfl, Or.inr (Or.inr rfl)⟩

/-- The message-count table [5, 5, 3, 3, 3, 1] over six distinct messages
in first-encountered order. -/
def c6Table : List (String × Nat) :=
  [("m1", 5), ("m2", 5), ("m3", 3), ("m4", 3), ("m5", 3), ("m6", 1)]

/-- An artifact of 20 records with missing response codes whose messages
accumulate to the counts [5, 5, 3, 3, 3, 1] in first-seen order m1..m6. -/
def c6Rows : List ResultRecord :=
  List.replicate 5 ⟨none, "m1"⟩ ++ List.replicate 5 ⟨none, "m2"⟩ ++
  List.replicate 3 ⟨none, "m3"⟩ ++ List.replicate 3 ⟨none, "m4"⟩ ++
  List.replicate 3 ⟨none, "m5"⟩ ++ [⟨none, "m6"⟩]

/-- C6: the top-error report always has at most 3 entries, is sorted by
count descending, and is stable — for each count value the entries keep
their first-encountered order; on the counts [5, 5, 3, 3, 3, 1] over six
distinct messages exactly the three entries (m1,5), (m2,5), (m3,3) are
reported, in first-seen tie order. -/
theorem c6_top3_determinism :
    (∀ tbl : List (String × Nat),
        (topErrors tbl).length ≤ 3 ∧
        List.Pairwise (fun a b => b.2 ≤ a.2) (topErrors tbl) ∧
        ∀ c : Nat, (sortByCountDesc tbl).filter (fun p => p.2 == c)
          = tbl.filter (fun p => p.2 == c)) ∧
      (analyze_results c6Rows).other_errors = c6Table ∧
      reportedTopOther (analyze_results c6Rows) = some [("m1", 5), ("m2", 5), ("m3", 3)] := by
  refine ⟨fun tbl => ⟨?_, ?_, fun c => filter_sortByCountDesc tbl c⟩, by decide, by decide⟩
  · show ((sortByCountDesc tbl).take 3).length ≤ 3
    rw [List.length_take]
    exact min_le_left _ _
  · exact List.Pairwise.sublist (List.take_sublist 3 _) (pairwise_sortByCountDesc tbl)

/-- C7 counterexample: load_instance_ips hands an existing file straight to
json.load with no exception handler, so a corrupt snapshot raises
json.JSONDecodeError instead of yielding the claimed empty registry. -/
theorem c7_corrupt_raises_cex :
    load_instance_ips RegistryFile.corrupt = Except.error "json.JSONDecodeError" ∧
      load_instance_ips RegistryFile.corrupt ≠ Except.ok [] :=
  ⟨rfl, fun h => nomatch h⟩

/-- C7 (amended): loading returns the persisted member set when the
snapshot file is present and well-formed, and an empty registry without
error when the file is missing; but a corrupt file raises an uncaught
json.JSONDecodeError rather than yielding an empty registry. -/
theorem c7_load_registry_snapshot :
    load_instance_ips RegistryFile.missing = Except.ok [] ∧
      (∀ entries : List SlaveNode,
        load_instance_ips (RegistryFile.valid entries) = Except.ok entries) ∧
      load_instance_ips RegistryFile.corrupt = Except.error "json.JSONDecodeError" :=
  ⟨rfl, fun _ => rfl, rfl⟩

theorem collectLoop_connectionError (pre post : List (SlaveNode × FetchOutcome))
    (node : SlaveNode) :
    collectLoop (pre ++ (node, FetchOutcome.connectionError) :: post)
      = Except.error "requests.exceptions.ConnectionError" := by
  induction pre with
  | nil => rfl
  | cons x pre ih =>
      rcases x with ⟨n, outcome⟩
      cases outcome with
      | connectionError => rfl
      | response s =>
          simp only [collectLoop, List.append_eq, ih]
          rfl

theorem collectLoop_all_responses (fleet : List (SlaveNode × FetchOutcome))
    (h : ∀ x ∈ fleet, x.2 ≠ FetchOutcome.connectionError) :
    collectLoop fleet = Except.ok (fleet.map (fun e => resultFileNameOf e.1)) := by
  induction fleet with
  | nil => rfl
  | cons x rest ih =>
      rcases x with ⟨n, outcome⟩
      cases outcome with
      | connectionError =>
          exact absurd rfl (h ⟨n, FetchOutcome.connectionError⟩ (by simp))
      | response s =>
          have hrest := ih (fun y hy => h y (List.mem_cons_of_mem _ hy))
          simp only [collectLoop, hrest, List.map_cons]
          rfl

theorem collect_results_cons (entry : SlaveNode × FetchOutcome)
    (rest : List (SlaveNode × FetchOutcome)) :
    collect_results_from_slaves (entry :: rest) = (collectLoop (entry :: rest)).map some := rfl

/-- Concrete nodes for the C8 instances. -/
def c8NodeA : SlaveNode := ⟨"i-0aa1", "54.0.1.1", "10.0.1.1"⟩

def c8NodeB : SlaveNode := ⟨"i-0aa2", "54.0.1.2", "10.0.1.2"⟩

/-- A two-member round in which the first fetch raises and the second would
succeed. -/
def c8Fleet : List (SlaveNode × FetchOutcome) :=
  [(c8NodeA, .connectionError), (c8NodeB, .response "timeStamp,responseCode")]

/-- C8 counterexample: a fetch failure on the first member is not caught —
collect_results_from_slaves raises, the second member is never fetched and
no result list is returned, against the claim that one failure only
excludes that member. -/
theorem c8_fetch_failure_aborts_cex :
    collect_results_from_slaves c8Fleet = Except.error "requests.exceptions.ConnectionError" ∧
      collect_results_from_slaves c8Fleet ≠ Except.ok (some [resultFileNameOf c8NodeB]) :=
  ⟨rfl, fun h => nomatch h⟩

/-- C8 (amended): the collect step has no per-member error handling. A
fleet containing any member whose fetch raises makes the whole round abort
with the uncaught exception (no member list is returned at all); only a
round in which every fetch returns a response yields the full list of
per-member result files. -/
theorem c8_collect_aborts_on_fetch_failure :
    (∀ (pre post : List (SlaveNode × FetchOutcome)) (node : SlaveNode),
        collect_results_from_slaves (pre ++ (node, FetchOutcome.connectionError) :: post)
          = Except.error "requests.exceptions.ConnectionError") ∧
      (∀ (entry : SlaveNode × FetchOutcome) (fleet : List (SlaveNode × FetchOutcome)),
        (∀ x ∈ entry :: fleet, x.2 ≠ FetchOutcome.connectionError) →
        collect_results_from_slaves (entry :: fleet)
          = Except.ok (some ((entry :: fleet).map (fun e => resultFileNameOf e.1)))) := by
  constructor
  · intro pre post node
    rcases pre with _ | ⟨a, pre⟩
    · have h := collectLoop_connectionError [] post node
      rw [List.nil_append] at h
      rw [List.nil_append, collect_results_cons, h]
      rfl
    · have h := collectLoop_connectionError (a :: pre) post node
      rw [List.cons_append] at h
      rw [List.cons_append, collect_results_cons, h]
      rfl
  · intro entry fleet h
    have h2 := collectLoop_all_responses (entry :: fleet) h
    rw [collect_results_cons, h2]
    rfl

/-- C8 witness: the amended theorem applied to the concrete fleets. -/
theorem c8_collect_witness :
    collect_results_from_slaves [(c8NodeA, FetchOutcome.connectionError)]
        = Except.error "requests.exceptions.ConnectionError" ∧
      collect_results_from_slaves [(c8NodeB, FetchOutcome.response "rows")]
        = Except.ok (some [resultFileNameOf c8NodeB]) :=
  ⟨c8_collect_aborts_on_fetch_failure.1 [] [] c8NodeA,
    c8_collect_aborts_on_fetch_failure.2 (c8NodeB, FetchOutcome.response "rows") []
      (by decide)⟩

/-- C9: run_jmeter_test deletes any existing results-file.jtl before the
executor starts, so after an accepted dispatch the previous artifact can
never be served: until the new executor writes the file, GET /get-results
answers 404 No results available. -/
theorem c9_dispatch_clears_previous_artifact :
    (∀ st : SlaveState, (run_jmeter_test st).resultFile = none ∧
        get_latest_results_file (run_jmeter_test st) = none ∧
        get_results (run_jmeter_test st) = HttpResult.json 404 "No results available") ∧
      (∀ (st : SlaveState) (jmx : String), (start_test st jmx).1.1 = 200 →
        get_results (start_test st jmx).2 = HttpResult.json 404 "No results available") := by
  constructor
  · intro st
    exact ⟨rfl, rfl, rfl⟩
  · intro st jmx h
    rcases st with ⟨proc, fs⟩
    cases proc with
    | none => rfl
    | some p =>
        cases p with
        | none => simp [start_test, check_jmeter_status] at h
        | some code =>
            simp [start_test, check_jmeter_status, run_jmeter_test, get_results,
              get_latest_results_file]

/-- C9 witness: dispatching on an idle node that still holds an old
artifact leaves a state whose result fetch answers 404. -/
theorem c9_dispatch_clears_witness :
    get_results (start_test ⟨none, some "old-artifact"⟩ "load_test/plan.jmx").2
        = HttpResult.json 404 "No results available" :=
  c9_dispatch_clears_previous_artifact.2 ⟨none, some "old-artifact"⟩ "load_test/plan.jmx" rfl

/-- C10: a record whose code parses to an integer outside the bucketed
ranges falls to the final else of analyze_results: the other bucket is
incremented, the 5xx table untouched, and the other frequency table is
keyed by str(status) — the decimal string of the code — not by the
responseMessage; only a record with a missing or unparsable code is keyed
by its message text. -/
theorem c10_out_of_range_keyed_by_code_string :
    (∀ (st : AggState) (row : ResultRecord) (s : Int),
        row.responseCode = some s → s < 200 ∨ 600 ≤ s →
        (processRow st row).counts.other = st.counts.other + 1 ∧
        (processRow st row).other_errors = bump st.other_errors (toString s) ∧
        (processRow st row).error_5xx = st.error_5xx) ∧
      (∀ (st : AggState) (row : ResultRecord),
        row.responseCode = none →
        (processRow st row).counts.other = st.counts.other + 1 ∧
        (processRow st row).other_errors = bump st.other_errors row.responseMessage) := by
  constructor
  · intro st row s hcode hrange
    rcases row with ⟨code, msg⟩
    simp only at hcode
    subst hcode
    simp only [processRow]
    have h1 : ¬ (200 ≤ s ∧ s < 300) := by omega
    have h2 : ¬ (300 ≤ s ∧ s < 400) := by omega
    have h3 : ¬ (400 ≤ s ∧ s < 500) := by omega
    have h4 : ¬ (500 ≤ s ∧ s < 600) := by omega
    rw [if_neg h1, if_neg h2, if_neg h3, if_neg h4]
    exact ⟨rfl, rfl, rfl⟩
  · intro st row h
    rcases row with ⟨code, msg⟩
    simp only at h
    subst h
    exact ⟨rfl, rfl⟩

/-- C10 witness: a 700 code lands in other keyed by the string 700, not by
its message. -/
theorem c10_keyed_by_code_witness :
    (processRow initAggState ⟨some 700, "Server Error"⟩).other_errors = [("700", 1)] := by
  have h := (c10_out_of_range_keyed_by_code_string.1 initAggState ⟨some 700, "Server Error"⟩
    700 rfl (by norm_num)).2.1
  rw [h]
  rfl
